import Mathlib

/-!
Verification of the oslo-skoler client-side map logic.

Shallow embedding of `src/static/js/main.js` (marker creation, popup
rendering, cluster aggregation, search, navigation, data loading) and of
the older main script preserved in the repository (`src/unnamed/part_000`,
namespace `Part0`).  JavaScript numbers are modelled as `Rat` (the averages
involved are small decimals, far from any floating-point boundary effect),
strings as Lean `String`, and `null`/`undefined` fields as `Option`.
-/

namespace OsloSkoler

/-- One yearly history entry of a school record (`school.history[i]`):
a year plus the three optional subject scores. -/
structure HistoryEntry where
  year : Nat
  engelsk : Option Int
  lesing : Option Int
  regning : Option Int
deriving DecidableEq

/-- A school record as it appears in `school-data.json` and is consumed by
`main.js`: name, kommune, type, coordinates, the three optional subject
scores, the precomputed average over present subjects, the count of present
subjects, the precomputed display color, and the history list. -/
structure School where
  name : String
  kommune : String
  schoolType : String
  lat : Rat
  lng : Rat
  color : String
  hasData : Bool
  engelsk : Option Int
  lesing : Option Int
  regning : Option Int
  average : Rat
  validScoresCount : Nat
  history : List HistoryEntry
deriving DecidableEq

/-- A Leaflet marker as the rest of `main.js` sees it: `marker.schoolData`
(set in `createSchoolMarker`, absent on foreign markers) and
`marker.options.fillColor` (set to `school.color`). -/
structure SchoolMarker where
  schoolData : Option School
  fillColor : Option String
deriving DecidableEq

/-! ## Cluster aggregation (`iconCreateFunction`, main.js lines 456-510) -/

/-- The color-to-representative-average table of `iconCreateFunction`
(main.js lines 470-475): red 42, orange 47, light green 52, dark green 57,
gray -1 (sentinel meaning skip), anything else 50. -/
def colorToAvg (color : String) : Int :=
  if color = "#d73027" then 42
  else if color = "#fc8d59" then 47
  else if color = "#91cf60" then 52
  else if color = "#1a9850" then 57
  else if color = "#999999" then (-1)
  else 50

/-- The `markers.forEach` accumulation of `iconCreateFunction`
(main.js lines 463-483): the guard `marker.options &&
marker.options.fillColor` is falsy both when the field is absent and when
it is the empty string, and such markers are skipped entirely; otherwise
the color is looked up in the table and, unless the sentinel -1 came
back, added to the sum with the count bumped. -/
def clusterSumCount : List SchoolMarker → Int × Nat
  | [] => (0, 0)
  | m :: rest =>
    let sc := clusterSumCount rest
    match m.fillColor with
    | none => sc
    | some color =>
      if color = "" then sc
      else
        let avg := colorToAvg color
        if avg ≠ -1 then (sc.1 + avg, sc.2 + 1) else sc

/-- The color selection of `iconCreateFunction` (main.js lines 485-500):
average of the accumulated sum over the count (0 when the count is 0),
then the threshold chain below `count > 0`, defaulting to gray. -/
def iconCreateColor (markers : List SchoolMarker) : String :=
  let sc := clusterSumCount markers
  let count := sc.2
  let average : Rat := if count > 0 then (sc.1 : Rat) / (count : Rat) else 0
  if count > 0 then
    if average < 45 then "#d73027"
    else if 45 ≤ average ∧ average < 50 then "#fc8d59"
    else if 50 ≤ average ∧ average < 55 then "#91cf60"
    else if 55 ≤ average then "#1a9850"
    else "#999999"
  else "#999999"

/-- The five colors the cluster aggregation recognizes. -/
def recognizedColors : List String :=
  ["#d73027", "#fc8d59", "#91cf60", "#1a9850", "#999999"]

/-- Modelled from the spec: the Score Classifier of section 4.1, whose
implementation lives in the offline pipeline (`create_map.py`), not under
`src/`.  No data is gray; average below 45 red; 45 to below 50 orange;
50 to below 55 light green; 55 and above dark green. -/
def classify (average : Option Rat) : String :=
  match average with
  | none => "#999999"
  | some a =>
    if a < 45 then "#d73027"
    else if a < 50 then "#fc8d59"
    else if a < 55 then "#91cf60"
    else "#1a9850"

/-- Modelled from the spec: the representative-value table of section 4.4
(red 42, orange 47, light-green 52, dark-green 57; gray contributes
nothing). -/
def specRepresentative (color : String) : Option Rat :=
  if color = "#d73027" then some 42
  else if color = "#fc8d59" then some 47
  else if color = "#91cf60" then some 52
  else if color = "#1a9850" then some 57
  else none

/-- The representative values of the non-gray markers of a cluster,
following the words of spec section 4.4. -/
def representativeValues (markers : List SchoolMarker) : List Rat :=
  markers.filterMap (fun m => m.fillColor.bind specRepresentative)

/-! ## Popup rendering (`createPopupContent`, main.js lines 180-228) -/

/-- The `formatScore` arrow function of `createPopupContent`: a missing
score renders as the placeholder glyph, a present one as its number. -/
def formatScore : Option Int → String
  | none => "*"
  | some s => toString s

/-- Model of JavaScript `Number.prototype.toFixed(1)` for the nonnegative
averages occurring in the data: one digit after the decimal point, rounded
half up. -/
def toFixed1 (q : Rat) : String :=
  let n : Int := Int.floor (q * 10 + 1 / 2)
  toString (n / 10) ++ "." ++ toString (n % 10)

/-- The per-row average of the popup history table (main.js lines 195-196):
mean over the present scores of the row, or the placeholder when none are
present. -/
def historyRowAvg (h : HistoryEntry) : String :=
  let scores := [h.engelsk, h.lesing, h.regning].filterMap id
  if scores.length > 0 then toFixed1 ((scores.sum : Rat) / (scores.length : Rat)) else "*"

/-- One row of the popup history table (main.js lines 197-203). -/
def historyRow (h : HistoryEntry) : String :=
  "<tr>\n                <td>" ++ toString h.year
    ++ "</td>\n                <td>" ++ formatScore h.engelsk
    ++ "</td>\n                <td>" ++ formatScore h.lesing
    ++ "</td>\n                <td>" ++ formatScore h.regning
    ++ "</td>\n                <td>" ++ historyRowAvg h
    ++ "</td>\n            </tr>"

/-- The history block of the popup (main.js lines 192-216): rows in
reverse chronological order inside the table wrapper, empty when the
school has no history. -/
def historyHtml (school : School) : String :=
  if school.history.length > 0 then
    "\n            <div class=\"popup-history\">\n                <b>Historikk</b>"
      ++ "\n                <table class=\"popup-history-table\">"
      ++ "\n                    <thead>"
      ++ "\n                        <tr><th>År</th><th>Eng</th><th>Les</th><th>Reg</th><th>Snitt</th></tr>"
      ++ "\n                    </thead>"
      ++ "\n                    <tbody>" ++ String.join (school.history.reverse.map historyRow)
      ++ "</tbody>\n                </table>\n            </div>"
  else ""

/-- The current-scores line of the popup (main.js lines 184-190). -/
def currentScores (school : School) : String :=
  if school.hasData then
    "<b>Engelsk:</b> " ++ formatScore school.engelsk
      ++ "&nbsp;&nbsp;\n           <b>Lesing:</b> " ++ formatScore school.lesing
      ++ "&nbsp;&nbsp;\n           <b>Regning:</b> " ++ formatScore school.regning
      ++ "<br>\n           <b>Snitt:</b> " ++ toFixed1 school.average
      ++ " <small>(" ++ toString school.validScoresCount ++ " fag)</small>"
  else
    "<b>Engelsk:</b> *&nbsp;&nbsp;<b>Lesing:</b> *&nbsp;&nbsp;<b>Regning:</b> *<br>"
      ++ "\n           <i style=\"color:#888\">Ingen data tilgjengelig</i>"

/-- `createPopupContent` of main.js (lines 218-227).  The template literal
interpolates the school fields directly, without HTML escaping.  The
global `window.SCHOOL_DATA_YEAR` is passed explicitly as `dataYear`. -/
def createPopupContent (dataYear : Option String) (school : School) : String :=
  "\n        <div class=\"popup-school\">\n            <div class=\"popup-header\">"
    ++ "\n                <span class=\"popup-name\">" ++ school.name
    ++ "</span>\n                <span class=\"popup-year\">" ++ dataYear.getD ""
    ++ "</span>\n            </div>\n            <div class=\"popup-kommune\">" ++ school.kommune
    ++ "</div>\n            <div class=\"popup-current\">" ++ currentScores school
    ++ "</div>\n            " ++ historyHtml school
    ++ "\n        </div>"

namespace Part0

/-- `createPopupContent` of the older main script kept in the repository
(`src/unnamed/part_000`, lines 88-112): the variant whose average line
reads "Gjennomsnitt: ... (basert på N fag)". -/
def createPopupContent (school : School) : String :=
  if school.hasData then
    "\n            <b>" ++ school.name
      ++ "</b><br>\n            <b>Kommune:</b> " ++ school.kommune
      ++ "<br>\n            <br>\n            <b>Engelsk:</b> " ++ formatScore school.engelsk
      ++ "<br>\n            <b>Lesing:</b> " ++ formatScore school.lesing
      ++ "<br>\n            <b>Regning:</b> " ++ formatScore school.regning
      ++ "<br>\n            <b>Gjennomsnitt:</b> " ++ toFixed1 school.average
      ++ " (basert på " ++ toString school.validScoresCount ++ " fag)\n        "
  else
    "\n            <b>" ++ school.name
      ++ "</b><br>\n            <b>Kommune:</b> " ++ school.kommune
      ++ "<br>\n            <br>\n            <b>Engelsk:</b> *<br>\n            <b>Lesing:</b> *"
      ++ "<br>\n            <b>Regning:</b> *"
      ++ "<br>\n            <b>Status:</b> <i>Ingen data tilgjengelig</i>\n        "

end Part0

/-! ## HTML escaping and search (`escapeHtml`, `performSearch`,
`highlightMatch`, main.js lines 286-370) -/

/-- The character expansion performed by `escapeHtml` (main.js lines
361-365): assigning to `textContent` and reading back `innerHTML` escapes
the ampersand and the two angle brackets, leaving every other character
untouched. -/
def escapeHtmlChar (c : Char) : List Char :=
  if c = '&' then "&amp;".toList
  else if c = '<' then "&lt;".toList
  else if c = '>' then "&gt;".toList
  else [c]

/-- `escapeHtml` of main.js, modelled character by character. -/
def escapeHtml (text : String) : String :=
  String.mk (List.flatten (text.toList.map escapeHtmlChar))

/-- Model of `String.prototype.toLowerCase` (exact on the ASCII range,
which covers the queries exercised here). -/
def jsToLower (s : String) : String :=
  String.mk (s.toList.map Char.toLower)

/-- Model of `String.prototype.includes`: substring test. -/
def jsIncludes (s sub : String) : Bool :=
  decide (sub.toList <:+: s.toList)

/-- Model of `String.prototype.startsWith`: prefix test. -/
def jsStartsWith (s sub : String) : Bool :=
  decide (sub.toList <+: s.toList)

/-- Lexicographic strict comparison of character lists by code point. -/
def charListLt : List Char → List Char → Bool
  | [], [] => false
  | [], _ :: _ => true
  | _ :: _, [] => false
  | a :: as, b :: bs =>
    if a < b then true else if b < a then false else charListLt as bs

/-- Model of `String.prototype.localeCompare` as code-point lexicographic
comparison: negative, zero or positive. -/
def localeCompare (a b : String) : Int :=
  if charListLt a.toList b.toList then -1
  else if charListLt b.toList a.toList then 1
  else 0

/-- The sort comparator of `performSearch` (main.js lines 296-303):
starts-with matches sort before contains-only matches, ties broken by
`localeCompare` on the names. -/
def searchComparator (queryLower : String) (a b : School) : Int :=
  let aStartsWith := jsStartsWith (jsToLower a.name) queryLower
  let bStartsWith := jsStartsWith (jsToLower b.name) queryLower
  if aStartsWith && !bStartsWith then -1
  else if !aStartsWith && bStartsWith then 1
  else localeCompare a.name b.name

/-- The order induced by the comparator: pairs the comparator reports as
not-greater.  `Array.prototype.sort` is a stable comparison sort; it is
modelled by insertion sort below. -/
def searchSortRel (queryLower : String) (a b : School) : Prop :=
  searchComparator queryLower a b ≤ 0

instance searchSortRelDecidable (ql : String) : DecidableRel (searchSortRel ql) :=
  fun _ _ => Int.decLe _ _

/-- The filter-then-sort phase of `performSearch` (main.js lines 288-303):
keep the schools whose lowercased name contains the lowercased query, then
sort them with the comparator. -/
def sortedMatches (query : String) (schools : List School) : List School :=
  let queryLower := jsToLower query
  let matching := schools.filter (fun school => jsIncludes (jsToLower school.name) queryLower)
  matching.insertionSort (searchSortRel queryLower)

/-- The display cap of `performSearch` (main.js line 307). -/
def maxResults : Nat := 10

/-- Fuel-indexed core of `highlightMatch`: scan the escaped text left to
right; at each position where the query matches case-insensitively, wrap
the matched slice in the highlight span and continue after it.  The fuel
is the length of the text, which bounds the number of steps. -/
def highlightAux (ql : List Char) : Nat → List Char → List Char
  | 0, cs => cs
  | _ + 1, [] => []
  | fuel + 1, c :: rest =>
    if !ql.isEmpty && ((c :: rest).take ql.length).map Char.toLower == ql.map Char.toLower then
      "<span class=\"search-result-highlight\">".toList ++ (c :: rest).take ql.length
        ++ "</span>".toList ++ highlightAux ql fuel ((c :: rest).drop ql.length)
    else c :: highlightAux ql fuel rest

/-- `highlightMatch` of main.js (lines 355-358): escape the name, then
replace every case-insensitive occurrence of the query with the
span-wrapped match (the regex is the literal query with its regex
metacharacters escaped, so plain substring matching). -/
def highlightMatch (text query : String) : String :=
  let escaped := escapeHtml text
  String.mk (highlightAux query.toList escaped.toList.length escaped.toList)

/-- One rendered search result row (main.js lines 310-318): data
attributes and the kommune line pass through `escapeHtml`, the name line
through `highlightMatch`. -/
def searchResultItemHtml (query : String) (school : School) : String :=
  "\n                <div class=\"search-result-item\" data-school-name=\"" ++ escapeHtml school.name
    ++ "\" data-school-kommune=\"" ++ escapeHtml school.kommune
    ++ "\">\n                    <div class=\"search-result-name\">" ++ highlightMatch school.name query
    ++ "</div>\n                    <div class=\"search-result-kommune\">" ++ escapeHtml school.kommune
    ++ "</div>\n                </div>\n            "

/-- The more-results indicator text (main.js line 324). -/
def moreResultsIndicator (shown total : Nat) : String :=
  "Viser " ++ toString shown ++ " av " ++ toString total ++ " resultater"

/-- What `performSearch` renders into the results container: either the
capped list of result rows with an optional more-results indicator, or the
no-results placeholder. -/
inductive SearchRendering where
  | results (rows : List String) (indicator : Option String)
  | noResults
deriving DecidableEq

/-- The display phase of `performSearch` (main.js lines 306-351): show at
most `maxResults` rows, append the indicator when more matches exist, or
render the placeholder when nothing matched. -/
def performSearchRendering (query : String) (schools : List School) : SearchRendering :=
  let matchingSchools := sortedMatches query schools
  if matchingSchools.length > 0 then
    let resultsToShow := matchingSchools.take maxResults
    SearchRendering.results (resultsToShow.map (searchResultItemHtml query))
      (if matchingSchools.length > maxResults then
        some (moreResultsIndicator maxResults matchingSchools.length)
      else none)
  else SearchRendering.noResults

/-- Concrete record named "Oslo Skole" (spec section 8 search example). -/
def osloSchool1 : School :=
  { name := "Oslo Skole", kommune := "Oslo", schoolType := "barneskole",
    lat := 0, lng := 0, color := "#91cf60", hasData := true,
    engelsk := some 52, lesing := some 52, regning := some 52,
    average := 52, validScoresCount := 3, history := [] }

/-- Concrete record named "Ny Oslo Skole" (spec section 8 search
example). -/
def osloSchool2 : School :=
  { name := "Ny Oslo Skole", kommune := "Oslo", schoolType := "barneskole",
    lat := 0, lng := 0, color := "#fc8d59", hasData := true,
    engelsk := some 47, lesing := some 47, regning := some 47,
    average := 47, validScoresCount := 3, history := [] }

/-- Fifteen concrete records whose names all contain "Skole" (spec
section 8 cap example). -/
def fifteenSchools : List School :=
  (List.range 15).map (fun i =>
    { name := "Skole " ++ toString i, kommune := "Oslo", schoolType := "barneskole",
      lat := 0, lng := 0, color := "#91cf60", hasData := true,
      engelsk := some 50, lesing := some 50, regning := some 50,
      average := 50, validScoresCount := 3, history := [] })

/-! ## Navigation (`zoomToSchool`, main.js lines 372-413) -/

/-- The match test of the marker scan in `zoomToSchool` (main.js lines
380-382): the marker carries school data and both the name and the kommune
agree. -/
def markerMatches (name kommune : String) (m : SchoolMarker) : Bool :=
  match m.schoolData with
  | some s => s.name == name && s.kommune == kommune
  | none => false

/-- The linear scan over `markerCluster.getLayers()` in `zoomToSchool`
(main.js lines 375-386): the first marker matching both name and
kommune. -/
def findTargetMarker (name kommune : String) (markers : List SchoolMarker) : Option SchoolMarker :=
  markers.find? (markerMatches name kommune)

/-- The map view state read and written by `setView`. -/
structure MapView where
  center : Rat × Rat
  zoom : Nat
deriving DecidableEq

/-- The observable outcome of a `zoomToSchool` call: the resulting view,
the school whose popup was opened (if any), and whether the not-found
error was logged. -/
structure NavResult where
  view : MapView
  openedPopup : Option School
  errorLogged : Bool
deriving DecidableEq

/-- `zoomToSchool` of main.js (lines 372-413): find the marker by name and
kommune; when none is found, log the error and return with the view
untouched; otherwise pan/zoom to the school at zoom 15 and open its popup
(the reveal-from-cluster detour ends in the same `openPopup`).  The inner
`none` branch is unreachable because the scan only accepts markers that
carry school data. -/
def zoomToSchool (name kommune : String) (markers : List SchoolMarker)
    (v : MapView) : NavResult :=
  match findTargetMarker name kommune markers with
  | none => { view := v, openedPopup := none, errorLogged := true }
  | some m =>
    match m.schoolData with
    | some school =>
      { view := { center := (school.lat, school.lng), zoom := 15 }
        openedPopup := some school
        errorLogged := false }
    | none => { view := v, openedPopup := none, errorLogged := true }

/-! ## Dataset loading (`loadSchoolData`, main.js lines 70-109) -/

/-- The optional map configuration of the dataset. -/
structure MapConfig where
  center : Rat × Rat
  zoom : Nat
deriving DecidableEq

/-- The optional metadata block of the dataset. -/
structure Metadata where
  currentYear : Option String
deriving DecidableEq

/-- The parsed shape of `school-data.json`. -/
structure SchoolDataDocument where
  schools : List School
  mapConfig : Option MapConfig
  metadata : Option Metadata
deriving DecidableEq

/-- The outcome of the dataset fetch: parsed data, a non-success HTTP
status (which line 74 turns into a thrown error), or a JSON parse
failure. -/
inductive FetchOutcome where
  | ok (data : SchoolDataDocument)
  | httpError (status : Nat)
  | parseError
deriving DecidableEq

/-- The process-wide state touched by `loadSchoolData`: the global
`schoolsData` list, the key-to-marker mapping, the markers added to the
cluster group, whether search was initialized, whether the blocking alert
fired, the current-year tag, and the map view. -/
structure AppState where
  schoolsData : List School
  schoolMarkers : List (String × SchoolMarker)
  clusterMarkers : List SchoolMarker
  searchInitialized : Bool
  alertShown : Bool
  dataYear : Option String
  view : MapView
deriving DecidableEq

/-- The unique key under which a marker is registered (main.js line 118). -/
def uniqueKey (school : School) : String :=
  school.name ++ "|" ++ school.kommune

/-- `createSchoolMarker` of main.js (lines 127-178), restricted to the
fields the rest of the program reads back: the school data back-reference
and `options.fillColor` (the icon SVG and popup binding are presentation
handed to Leaflet). -/
def createSchoolMarker (school : School) : SchoolMarker :=
  { schoolData := some school, fillColor := some school.color }

/-- `createSchoolMarkers` of main.js (lines 112-121): one marker per
school, registered under its unique key. -/
def createSchoolMarkers (schools : List School) : List (String × SchoolMarker) :=
  schools.map (fun school => (uniqueKey school, createSchoolMarker school))

/-- The state before any loading: empty school list, no markers, search
not initialized, the `initMap` default view. -/
def initialState : AppState :=
  { schoolsData := []
    schoolMarkers := []
    clusterMarkers := []
    searchInitialized := false
    alertShown := false
    dataYear := none
    view := { center := (61.624746195799126, 10.01940767020763), zoom := 5 } }

/-- `loadSchoolData` of main.js (lines 70-109): on success store the
school list, apply the optional map configuration and the current-year
tag (the `data.metadata && data.metadata.currentYear` guard is falsy for
an absent or empty-string tag), create and register the markers, add them
to the cluster and initialize search; on an HTTP error or a parse failure
the continuation is skipped and the catch handler fires the blocking
alert, leaving everything else untouched. -/
def loadSchoolData (outcome : FetchOutcome) (st : AppState) : AppState :=
  match outcome with
  | FetchOutcome.ok data =>
    let entries := createSchoolMarkers data.schools
    { st with
      dataYear :=
        match data.metadata with
        | some md => match md.currentYear with
          | some y => if y = "" then st.dataYear else some y
          | none => st.dataYear
        | none => st.dataYear
      schoolsData := data.schools
      view :=
        match data.mapConfig with
        | some cfg => { center := cfg.center, zoom := cfg.zoom }
        | none => st.view
      schoolMarkers := st.schoolMarkers ++ entries
      clusterMarkers := st.clusterMarkers ++ entries.map Prod.snd
      searchInitialized := true }
  | FetchOutcome.httpError _ => { st with alertShown := true }
  | FetchOutcome.parseError => { st with alertShown := true }

end OsloSkoler

namespace OsloSkoler

/-- Helper: under the assumption that every marker carries one of the five
recognized colors, the sum and count accumulated by the code coincide with
the sum and length of the representative values named by the spec. -/
theorem clusterSumCount_eq_representative (markers : List SchoolMarker)
    (hrec : ∀ m ∈ markers, ∃ c ∈ recognizedColors, m.fillColor = some c) :
    ((clusterSumCount markers).1 : Rat) = (representativeValues markers).sum ∧
    (clusterSumCount markers).2 = (representativeValues markers).length := by
  induction markers with
  | nil => simp [clusterSumCount, representativeValues]
  | cons m rest ih =>
    obtain ⟨c, hcmem, hc⟩ := hrec m (by simp)
    have ih' := ih (fun m' hm' => hrec m' (List.mem_cons_of_mem _ hm'))
    simp only [recognizedColors, List.mem_cons, List.not_mem_nil, or_false] at hcmem
    rcases hcmem with h | h | h | h | h <;>
      subst h <;>
      simp [clusterSumCount, representativeValues, colorToAvg, specRepresentative,
        hc, ih'.1, ih'.2, add_comm]

/-- Helper: the threshold chain of `iconCreateFunction` agrees with the
classifier of spec section 4.1 on every average. -/
theorem branch_eq_classify (a : Rat) :
    (if a < 45 then "#d73027"
     else if 45 ≤ a ∧ a < 50 then "#fc8d59"
     else if 50 ≤ a ∧ a < 55 then "#91cf60"
     else if 55 ≤ a then "#1a9850"
     else "#999999") = classify (some a) := by
  by_cases h1 : a < 45
  · simp [classify, h1]
  · by_cases h2 : a < 50
    · simp [classify, h1, h2, not_lt.mp h1]
    · by_cases h3 : a < 55
      · simp [classify, h1, h2, h3, not_lt.mp h2]
      · simp [classify, h1, h2, h3, not_lt.mp h3]

/-- C1: for every cluster whose markers all carry one of the five
recognized colors, the aggregation maps each non-gray marker to its fixed
representative value (red 42, orange 47, light-green 52, dark-green 57),
and the cluster color is the spec classifier of section 4.1 applied to the
mean of those values; the boundary values 45, 50 and 55 land in the upper
band. -/
theorem cluster_color_matches_classified_mean (markers : List SchoolMarker)
    (hrec : ∀ m ∈ markers, ∃ c ∈ recognizedColors, m.fillColor = some c) :
    (representativeValues markers ≠ [] →
      iconCreateColor markers =
        classify (some ((representativeValues markers).sum /
          ((representativeValues markers).length : Rat))))
    ∧ classify (some 45) = "#fc8d59" ∧ classify (some 50) = "#91cf60"
    ∧ classify (some 55) = "#1a9850" := by
  obtain ⟨hsum, hcount⟩ := clusterSumCount_eq_representative markers hrec
  refine ⟨fun hne => ?_, by norm_num [classify], by norm_num [classify],
    by norm_num [classify]⟩
  have hlen : 0 < (representativeValues markers).length := List.length_pos.mpr hne
  have hcpos : 0 < (clusterSumCount markers).2 := by rw [hcount]; exact hlen
  have havg : ((clusterSumCount markers).1 : Rat) / ((clusterSumCount markers).2 : Rat)
      = (representativeValues markers).sum / ((representativeValues markers).length : Rat) := by
    rw [hsum, hcount]
  simp only [iconCreateColor, gt_iff_lt, hcpos, if_true]
  rw [havg]
  exact branch_eq_classify _

/-- C1 witness: a cluster of one red and one light-green marker has
representative values 42 and 52, mean 47, and classifies orange. -/
theorem cluster_color_matches_classified_mean_witness :
    (∀ m ∈ ([⟨none, some "#d73027"⟩, ⟨none, some "#91cf60"⟩] : List SchoolMarker),
        ∃ c ∈ recognizedColors, m.fillColor = some c)
    ∧ ((representativeValues [⟨none, some "#d73027"⟩, ⟨none, some "#91cf60"⟩] ≠ [] →
        iconCreateColor [⟨none, some "#d73027"⟩, ⟨none, some "#91cf60"⟩] =
          classify (some
            ((representativeValues [⟨none, some "#d73027"⟩, ⟨none, some "#91cf60"⟩]).sum /
            ((representativeValues [⟨none, some "#d73027"⟩, ⟨none, some "#91cf60"⟩]).length : Rat))))
      ∧ classify (some 45) = "#fc8d59" ∧ classify (some 50) = "#91cf60"
      ∧ classify (some 55) = "#1a9850") :=
  ⟨by decide, cluster_color_matches_classified_mean _ (by decide)⟩

/-- C2: every gray (no-data) marker is excluded from both the sum and the
count of the cluster aggregation, and a cluster whose markers are all gray
displays gray itself. -/
theorem cluster_gray_excluded :
    (∀ (m : SchoolMarker) (rest : List SchoolMarker),
        m.fillColor = some "#999999" → clusterSumCount (m :: rest) = clusterSumCount rest)
    ∧ (∀ markers : List SchoolMarker,
        (∀ m ∈ markers, m.fillColor = some "#999999") →
        iconCreateColor markers = "#999999") := by
  have hzero : ∀ ms : List SchoolMarker,
      (∀ m ∈ ms, m.fillColor = some "#999999") → clusterSumCount ms = (0, 0) := by
    intro ms
    induction ms with
    | nil => intro _; rfl
    | cons m rest ih =>
      intro h
      simp [clusterSumCount, h m (by simp), colorToAvg,
        ih (fun m' hm' => h m' (List.mem_cons_of_mem _ hm'))]
  constructor
  · intro m rest h
    simp [clusterSumCount, h, colorToAvg]
  · intro markers hall
    simp [iconCreateColor, hzero markers hall]

/-- C2 witness: prepending a gray marker leaves the sum and count of a
red singleton cluster unchanged, and a cluster of two gray markers is
gray. -/
theorem cluster_gray_excluded_witness :
    clusterSumCount [⟨none, some "#999999"⟩, ⟨none, some "#d73027"⟩]
      = clusterSumCount [⟨none, some "#d73027"⟩]
    ∧ iconCreateColor [⟨none, some "#999999"⟩, ⟨none, some "#999999"⟩] = "#999999" :=
  ⟨cluster_gray_excluded.1 ⟨none, some "#999999"⟩ [⟨none, some "#d73027"⟩] rfl,
   cluster_gray_excluded.2 [⟨none, some "#999999"⟩, ⟨none, some "#999999"⟩] (by decide)⟩

/-- C9 counterexample: the empty string is none of the five recognized
colors, yet a marker carrying it fails the falsy guard at main.js line 464
and is skipped entirely — it contributes neither 50 to the sum nor 1 to
the count, refuting the claim as stated at `fillColor = ""`. -/
theorem cluster_unrecognized_counts_as_fifty_counterexample :
    ("" ∉ recognizedColors)
    ∧ clusterSumCount [(⟨none, some ""⟩ : SchoolMarker)] = (0, 0)
    ∧ clusterSumCount [(⟨none, some ""⟩ : SchoolMarker)]
        ≠ ((clusterSumCount []).1 + 50, (clusterSumCount []).2 + 1) := by
  decide

/-- C9 (amended): a marker whose fill color is a non-empty string that is
none of the five recognized colors is not skipped by the aggregation: it
contributes the default representative value 50 to the sum and is
counted. -/
theorem cluster_unrecognized_counts_as_fifty (c : String) (m : SchoolMarker)
    (rest : List SchoolMarker) (hc : m.fillColor = some c)
    (hne : c ≠ "") (hnr : c ∉ recognizedColors) :
    clusterSumCount (m :: rest)
      = ((clusterSumCount rest).1 + 50, (clusterSumCount rest).2 + 1) := by
  simp only [recognizedColors, List.mem_cons, List.not_mem_nil, or_false, not_or] at hnr
  obtain ⟨h1, h2, h3, h4, h5⟩ := hnr
  simp [clusterSumCount, hc, colorToAvg, hne, h1, h2, h3, h4, h5]

/-- C9 witness: a marker colored with the unrecognized non-empty string
"#123456" contributes 50 to the sum and 1 to the count of its cluster. -/
theorem cluster_unrecognized_counts_as_fifty_witness :
    ("#123456" ≠ "" ∧ "#123456" ∉ recognizedColors)
    ∧ clusterSumCount [(⟨none, some "#123456"⟩ : SchoolMarker)]
        = ((clusterSumCount []).1 + 50, (clusterSumCount []).2 + 1) :=
  ⟨⟨by decide, by decide⟩,
   cluster_unrecognized_counts_as_fifty "#123456" ⟨none, some "#123456"⟩ [] rfl
     (by decide) (by decide)⟩

/-- Helper: an occurrence inside the right part of a string concatenation
is an occurrence in the whole. -/
theorem infix_toList_append_right (t : List Char) (a b : String) (h : t <:+: b.toList) :
    t <:+: (a ++ b).toList := by
  rw [show (a ++ b).toList = a.toList ++ b.toList from String.data_append a b]
  exact h.trans (List.suffix_append _ _).isInfix

/-- Helper: an occurrence inside the left part of a string concatenation
is an occurrence in the whole. -/
theorem infix_toList_append_left (t : List Char) (a b : String) (h : t <:+: a.toList) :
    t <:+: (a ++ b).toList := by
  rw [show (a ++ b).toList = a.toList ++ b.toList from String.data_append a b]
  exact h.trans (List.prefix_append _ _).isInfix

/-- Helper: `toFixed1` renders the average 53 as "53.0". -/
theorem toFixed1_53 : toFixed1 53 = "53.0" := by
  have h : ⌊(53 : Rat) * 10 + 1 / 2⌋ = 530 := by norm_num
  simp only [toFixed1, h]
  decide

/-- C3: the popup generated for a school record with average 53 and 2
valid subjects contains the literal text "basert på 2 fag" and the average
rendered as "53.0" over the 2 present subjects. -/
theorem popup_renders_basert_paa (school : School)
    (h1 : school.hasData = true) (h2 : school.average = 53)
    (h3 : school.validScoresCount = 2) :
    "basert på 2 fag".toList <:+: (Part0.createPopupContent school).toList
    ∧ "53.0".toList <:+: (Part0.createPopupContent school).toList := by
  simp only [Part0.createPopupContent, h1, if_true, h2, h3, toFixed1_53,
    String.append_assoc]
  constructor
  · apply infix_toList_append_right
    apply infix_toList_append_right
    apply infix_toList_append_right
    apply infix_toList_append_right
    apply infix_toList_append_right
    apply infix_toList_append_right
    apply infix_toList_append_right
    apply infix_toList_append_right
    apply infix_toList_append_right
    apply infix_toList_append_right
    apply infix_toList_append_right
    apply infix_toList_append_right
    decide
  · apply infix_toList_append_right
    apply infix_toList_append_right
    apply infix_toList_append_right
    apply infix_toList_append_right
    apply infix_toList_append_right
    apply infix_toList_append_right
    apply infix_toList_append_right
    apply infix_toList_append_right
    apply infix_toList_append_right
    apply infix_toList_append_right
    apply infix_toList_append_right
    apply infix_toList_append_left
    decide

/-- C3 witness: a concrete record with average 53 and 2 present subjects. -/
theorem popup_renders_basert_paa_witness :
    "basert på 2 fag".toList <:+:
      (Part0.createPopupContent
        ⟨"Testskolen", "Oslo", "barneskole", 0, 0, "#91cf60", true,
          some 52, some 54, none, 53, 2, []⟩).toList
    ∧ "53.0".toList <:+:
      (Part0.createPopupContent
        ⟨"Testskolen", "Oslo", "barneskole", 0, 0, "#91cf60", true,
          some 52, some 54, none, 53, 2, []⟩).toList :=
  popup_renders_basert_paa _ rfl rfl rfl

/-- Helper: the expansion of a single character by `escapeHtml` never
contains a raw left angle bracket. -/
theorem escapeHtmlChar_no_lt (c : Char) : '<' ∉ escapeHtmlChar c := by
  unfold escapeHtmlChar
  split_ifs with h1 h2 h3
  · decide
  · decide
  · decide
  · simp only [List.mem_singleton]
    exact fun h => h2 h.symm

/-- Helper: the output of `escapeHtml` never contains a raw left angle
bracket. -/
theorem escapeHtml_no_lt (s : String) : '<' ∉ (escapeHtml s).toList := by
  intro hmem
  rw [show (escapeHtml s).toList = List.flatten (s.toList.map escapeHtmlChar) from rfl,
    List.mem_flatten] at hmem
  obtain ⟨l, hl, hcl⟩ := hmem
  rw [List.mem_map] at hl
  obtain ⟨c, _, rfl⟩ := hl
  exact escapeHtmlChar_no_lt c hcl

/-- C10: `createPopupContent` interpolates the school name and kommune
into the popup markup verbatim, without escaping; `escapeHtml` — applied
by the search result renderer to the same fields — changes every string
containing a raw left angle bracket and leaves none in its output. -/
theorem popup_unescaped_search_escaped :
    (∀ (dataYear : Option String) (school : School),
        school.name.toList <:+: (createPopupContent dataYear school).toList
        ∧ school.kommune.toList <:+: (createPopupContent dataYear school).toList)
    ∧ (∀ s : String, '<' ∈ s.toList →
        escapeHtml s ≠ s ∧ '<' ∉ (escapeHtml s).toList)
    ∧ (∀ (query : String) (school : School), ∃ before after : String,
        searchResultItemHtml query school
          = before ++ (escapeHtml school.name ++ after)) := by
  refine ⟨fun dataYear school => ⟨?_, ?_⟩, fun s hs => ⟨?_, escapeHtml_no_lt s⟩, ?_⟩
  · simp only [createPopupContent, String.append_assoc]
    apply infix_toList_append_right
    apply infix_toList_append_right
    apply infix_toList_append_left
    exact List.infix_rfl
  · simp only [createPopupContent, String.append_assoc]
    apply infix_toList_append_right
    apply infix_toList_append_right
    apply infix_toList_append_right
    apply infix_toList_append_right
    apply infix_toList_append_right
    apply infix_toList_append_right
    apply infix_toList_append_left
    exact List.infix_rfl
  · intro heq
    apply escapeHtml_no_lt s
    rw [heq]
    exact hs
  · intro query school
    refine ⟨"\n                <div class=\"search-result-item\" data-school-name=\"", ?_, ?_⟩
    · exact "\" data-school-kommune=\"" ++ (escapeHtml school.kommune
        ++ ("\">\n                    <div class=\"search-result-name\">"
        ++ (highlightMatch school.name query
        ++ ("</div>\n                    <div class=\"search-result-kommune\">"
        ++ (escapeHtml school.kommune ++ "</div>\n                </div>\n            ")))))
    · simp only [searchResultItemHtml, String.append_assoc]

/-- C10 witness: a school name containing a raw left angle bracket. -/
theorem popup_unescaped_search_escaped_witness :
    ('<' ∈ "A<B".toList)
    ∧ (escapeHtml "A<B" ≠ "A<B" ∧ '<' ∉ (escapeHtml "A<B").toList)
    ∧ ("A<B".toList <:+:
        (createPopupContent none
          ⟨"A<B", "Oslo", "barneskole", 0, 0, "#d73027", true,
            some 40, none, none, 40, 1, []⟩).toList) :=
  ⟨by decide,
   popup_unescaped_search_escaped.2.1 "A<B" (by decide),
   (popup_unescaped_search_escaped.1 none
     ⟨"A<B", "Oslo", "barneskole", 0, 0, "#d73027", true,
       some 40, none, none, 40, 1, []⟩).1⟩

/-- C6: when a marker whose school record matches both the selected name
and the selected municipality is in the layer list, and it is the only
such marker, the navigation scan resolves to exactly that marker, and
every marker it can return matches both fields, never the name alone. -/
theorem navigation_resolves_pair (name kommune : String) (markers : List SchoolMarker)
    (m : SchoolMarker) (hm : m ∈ markers)
    (hmatch : markerMatches name kommune m = true)
    (huniq : ∀ m' ∈ markers, markerMatches name kommune m' = true → m' = m) :
    findTargetMarker name kommune markers = some m
    ∧ ∀ s, m.schoolData = some s → s.name = name ∧ s.kommune = kommune := by
  constructor
  · have hfind : ∀ ms : List SchoolMarker, m ∈ ms →
        (∀ m' ∈ ms, markerMatches name kommune m' = true → m' = m) →
        findTargetMarker name kommune ms = some m := by
      intro ms
      induction ms with
      | nil => intro h _; cases h
      | cons a rest ih =>
        intro hmem hu
        by_cases ha : markerMatches name kommune a = true
        · rw [findTargetMarker, List.find?_cons_of_pos _ ha]
          exact congrArg some (hu a (List.mem_cons_self a rest) ha)
        · have hmr : m ∈ rest := by
            rcases List.mem_cons.mp hmem with h | h
            · exact absurd (h ▸ hmatch) ha
            · exact h
          rw [findTargetMarker, List.find?_cons_of_neg _ ha]
          exact ih hmr (fun m' hm' hmatch' => hu m' (List.mem_cons_of_mem _ hm') hmatch')
    exact hfind markers hm huniq
  · intro s hs
    unfold markerMatches at hmatch
    rw [hs] at hmatch
    simp only [Bool.and_eq_true, beq_iff_eq] at hmatch
    exact hmatch

/-- C6 witness: two schools named "Tvillingskolen" in different kommuner;
the scan keyed on (name, kommune) resolves to the Bergen one even though
the Oslo one comes first. -/
theorem navigation_resolves_pair_witness :
    ((⟨some ⟨"Tvillingskolen", "Bergen", "barneskole", 1, 1, "#91cf60", true,
        some 52, none, none, 52, 1, []⟩, some "#91cf60"⟩ : SchoolMarker) ∈
      ([⟨some ⟨"Tvillingskolen", "Oslo", "barneskole", 0, 0, "#d73027", true,
          some 40, none, none, 40, 1, []⟩, some "#d73027"⟩,
        ⟨some ⟨"Tvillingskolen", "Bergen", "barneskole", 1, 1, "#91cf60", true,
          some 52, none, none, 52, 1, []⟩, some "#91cf60"⟩] : List SchoolMarker))
    ∧ findTargetMarker "Tvillingskolen" "Bergen"
        [⟨some ⟨"Tvillingskolen", "Oslo", "barneskole", 0, 0, "#d73027", true,
            some 40, none, none, 40, 1, []⟩, some "#d73027"⟩,
         ⟨some ⟨"Tvillingskolen", "Bergen", "barneskole", 1, 1, "#91cf60", true,
            some 52, none, none, 52, 1, []⟩, some "#91cf60"⟩]
        = some ⟨some ⟨"Tvillingskolen", "Bergen", "barneskole", 1, 1, "#91cf60", true,
            some 52, none, none, 52, 1, []⟩, some "#91cf60"⟩ :=
  ⟨by decide,
   (navigation_resolves_pair "Tvillingskolen" "Bergen" _ _ (by decide) (by decide)
     (by decide)).1⟩

/-- C7: when no marker matches the requested name and kommune, navigation
only logs the failure: the view is unchanged (no pan, no zoom) and no
popup is opened. -/
theorem navigation_not_found_aborts (name kommune : String)
    (markers : List SchoolMarker) (v : MapView)
    (h : findTargetMarker name kommune markers = none) :
    zoomToSchool name kommune markers v
      = { view := v, openedPopup := none, errorLogged := true } := by
  unfold zoomToSchool
  rw [h]

/-- C7 witness: navigating to an absent school over an empty layer list
leaves the default view untouched. -/
theorem navigation_not_found_aborts_witness :
    findTargetMarker "Finnes Ikke" "Oslo" [] = none
    ∧ zoomToSchool "Finnes Ikke" "Oslo" [] ⟨(0, 0), 5⟩
        = { view := ⟨(0, 0), 5⟩, openedPopup := none, errorLogged := true } :=
  ⟨rfl, navigation_not_found_aborts "Finnes Ikke" "Oslo" [] ⟨(0, 0), 5⟩ rfl⟩

/-- C8: when the dataset fetch ends in a non-success HTTP status or a
parse failure, the loader only raises the blocking alert: the school list,
the marker registries, the search flag and the view all stay exactly as
they were — with the initial state, no partial render at all. -/
theorem load_failure_is_fatal_and_clean (outcome : FetchOutcome) (st : AppState)
    (h : ∀ data, outcome ≠ FetchOutcome.ok data) :
    loadSchoolData outcome st = { st with alertShown := true }
    ∧ (loadSchoolData outcome st).alertShown = true
    ∧ (loadSchoolData outcome st).schoolsData = st.schoolsData
    ∧ (loadSchoolData outcome st).clusterMarkers = st.clusterMarkers
    ∧ (loadSchoolData outcome st).schoolMarkers = st.schoolMarkers
    ∧ (loadSchoolData outcome st).searchInitialized = st.searchInitialized
    ∧ (loadSchoolData outcome st).view = st.view := by
  cases outcome with
  | ok data => exact absurd rfl (h data)
  | httpError status => exact ⟨rfl, rfl, rfl, rfl, rfl, rfl, rfl⟩
  | parseError => exact ⟨rfl, rfl, rfl, rfl, rfl, rfl, rfl⟩

/-- C8 witness: an HTTP 404 on the initial state shows the alert and
leaves the school list empty, no markers, and search uninitialized. -/
theorem load_failure_is_fatal_and_clean_witness :
    (∀ data, FetchOutcome.httpError 404 ≠ FetchOutcome.ok data)
    ∧ loadSchoolData (FetchOutcome.httpError 404) initialState
        = { initialState with alertShown := true }
    ∧ (loadSchoolData (FetchOutcome.httpError 404) initialState).schoolsData = []
    ∧ (loadSchoolData (FetchOutcome.httpError 404) initialState).clusterMarkers = []
    ∧ (loadSchoolData (FetchOutcome.httpError 404) initialState).searchInitialized = false :=
  by
  have h := load_failure_is_fatal_and_clean (FetchOutcome.httpError 404) initialState
    (fun _ hh => nomatch hh)
  exact ⟨fun _ hh => (nomatch hh), h.1, h.2.2.1, h.2.2.2.1, h.2.2.2.2.2.1⟩

/-- Helper: unfolding of the filter-then-sort phase of `performSearch`. -/
theorem sortedMatches_def (query : String) (schools : List School) :
    sortedMatches query schools
      = (schools.filter (fun school =>
          jsIncludes (jsToLower school.name) (jsToLower query))).insertionSort
          (searchSortRel (jsToLower query)) := rfl

/-- Helper: `charListLt` is transitive. -/
theorem charListLt_trans {x y z : List Char} (h1 : charListLt x y = true)
    (h2 : charListLt y z = true) : charListLt x z = true := by
  induction x generalizing y z with
  | nil =>
    cases y with
    | nil => exact absurd h1 (by simp [charListLt])
    | cons b bs =>
      cases z with
      | nil => exact absurd h2 (by simp [charListLt])
      | cons c cs => rfl
  | cons a as ih =>
    cases y with
    | nil => exact absurd h1 (by simp [charListLt])
    | cons b bs =>
      cases z with
      | nil => exact absurd h2 (by simp [charListLt])
      | cons c cs =>
        by_cases hab : a < b
        · by_cases hbc : b < c
          · simp [charListLt, lt_trans hab hbc]
          · by_cases hcb : c < b
            · exact absurd h2 (by simp [charListLt, hbc, hcb])
            · have hbceq : b = c := le_antisymm (not_lt.mp hcb) (not_lt.mp hbc)
              subst hbceq
              simp [charListLt, hab]
        · by_cases hba : b < a
          · exact absurd h1 (by simp [charListLt, hab, hba])
          · have habeq : a = b := le_antisymm (not_lt.mp hba) (not_lt.mp hab)
            subst habeq
            have h1t : charListLt as bs = true := by
              simpa [charListLt, lt_irrefl] using h1
            by_cases hac : a < c
            · simp [charListLt, hac]
            · by_cases hca : c < a
              · exact absurd h2 (by simp [charListLt, hac, hca])
              · have haceq : a = c := le_antisymm (not_lt.mp hca) (not_lt.mp hac)
                subst haceq
                have h2t : charListLt bs cs = true := by
                  simpa [charListLt, lt_irrefl] using h2
                simp [charListLt, lt_irrefl, ih h1t h2t]

/-- Helper: two character lists are comparable or equal. -/
theorem charListLt_connex (x y : List Char) :
    charListLt x y = true ∨ charListLt y x = true ∨ x = y := by
  induction x generalizing y with
  | nil =>
    cases y with
    | nil => exact Or.inr (Or.inr rfl)
    | cons b bs => exact Or.inl rfl
  | cons a as ih =>
    cases y with
    | nil => exact Or.inr (Or.inl rfl)
    | cons b bs =>
      rcases lt_trichotomy a b with h | h | h
      · exact Or.inl (by simp [charListLt, h])
      · subst h
        rcases ih bs with h2 | h2 | h2
        · exact Or.inl (by simp [charListLt, lt_irrefl, h2])
        · exact Or.inr (Or.inl (by simp [charListLt, lt_irrefl, h2]))
        · exact Or.inr (Or.inr (by rw [h2]))
      · exact Or.inr (Or.inl (by simp [charListLt, h]))

/-- Helper: `localeCompare` reports not-greater exactly when the first
string is strictly smaller or the reverse comparison is not strictly
smaller. -/
theorem localeCompare_nonpos_iff (a b : String) :
    localeCompare a b ≤ 0 ↔
      (charListLt a.toList b.toList = true ∨ charListLt b.toList a.toList = false) := by
  unfold localeCompare
  split_ifs with h1 h2
  · exact iff_of_true (by norm_num) (Or.inl h1)
  · refine iff_of_false (by norm_num) ?_
    rintro (h | h)
    · exact h1 h
    · rw [h2] at h
      exact Bool.noConfusion h
  · exact iff_of_true le_rfl (Or.inr (Bool.eq_false_iff.mpr h2))

/-- Helper: `localeCompare` not-greater is total. -/
theorem localeCompare_le_total (a b : String) :
    localeCompare a b ≤ 0 ∨ localeCompare b a ≤ 0 := by
  rw [localeCompare_nonpos_iff, localeCompare_nonpos_iff]
  cases h1 : charListLt a.toList b.toList <;>
    cases h2 : charListLt b.toList a.toList <;> simp

/-- Helper: `localeCompare` not-greater is transitive. -/
theorem localeCompare_le_trans (a b c : String)
    (h1 : localeCompare a b ≤ 0) (h2 : localeCompare b c ≤ 0) :
    localeCompare a c ≤ 0 := by
  rw [localeCompare_nonpos_iff] at h1 h2 ⊢
  rcases h1 with hab | hba <;> rcases h2 with hbc | hcb
  · exact Or.inl (charListLt_trans hab hbc)
  · refine Or.inr ?_
    cases hca : charListLt c.toList a.toList with
    | false => rfl
    | true => exact absurd (charListLt_trans hca hab) (Bool.eq_false_iff.mp hcb)
  · refine Or.inr ?_
    cases hca : charListLt c.toList a.toList with
    | false => rfl
    | true => exact absurd (charListLt_trans hbc hca) (Bool.eq_false_iff.mp hba)
  · refine Or.inr ?_
    cases hca : charListLt c.toList a.toList with
    | false => rfl
    | true =>
      rcases charListLt_connex a.toList b.toList with h | h | h
      · exact absurd (charListLt_trans hca h) (Bool.eq_false_iff.mp hcb)
      · exact absurd h (Bool.eq_false_iff.mp hba)
      · rw [h] at hca
        exact absurd hca (Bool.eq_false_iff.mp hcb)

/-- Helper: the comparator reports not-greater exactly when the first
school starts with the query and the second does not, or both have the
same starts-with status and the name comparison is not-greater. -/
theorem searchSortRel_iff (ql : String) (a b : School) :
    searchSortRel ql a b ↔
      ((jsStartsWith (jsToLower a.name) ql = true
          ∧ jsStartsWith (jsToLower b.name) ql = false)
        ∨ (jsStartsWith (jsToLower a.name) ql = jsStartsWith (jsToLower b.name) ql
          ∧ localeCompare a.name b.name ≤ 0)) := by
  unfold searchSortRel searchComparator
  cases hA : jsStartsWith (jsToLower a.name) ql <;>
    cases hB : jsStartsWith (jsToLower b.name) ql <;>
      simp [hA, hB]

/-- Helper: the comparator order is total. -/
theorem searchSortRel_total (ql : String) (a b : School) :
    searchSortRel ql a b ∨ searchSortRel ql b a := by
  rw [searchSortRel_iff, searchSortRel_iff]
  cases hA : jsStartsWith (jsToLower a.name) ql <;>
    cases hB : jsStartsWith (jsToLower b.name) ql <;>
      simp [hA, hB]
  all_goals exact localeCompare_le_total _ _

/-- Helper: the comparator order is transitive. -/
theorem searchSortRel_trans (ql : String) (a b c : School)
    (hab : searchSortRel ql a b) (hbc : searchSortRel ql b c) :
    searchSortRel ql a c := by
  rw [searchSortRel_iff] at hab hbc ⊢
  rcases hab with ⟨ha, hb⟩ | ⟨hab1, hab2⟩ <;>
    rcases hbc with ⟨hb', hc⟩ | ⟨hbc1, hbc2⟩
  · rw [hb] at hb'
    exact absurd hb' (by simp)
  · left
    exact ⟨ha, by rw [← hbc1]; exact hb⟩
  · left
    exact ⟨by rw [hab1]; exact hb', hc⟩
  · right
    exact ⟨hab1.trans hbc1, localeCompare_le_trans _ _ _ hab2 hbc2⟩

/-- C4: for every query of at least 2 characters, the matches are exactly
the schools whose lowercased name contains the lowercased query, ordered
so that no merely-containing school precedes a starts-with school, with
equal starts-with groups ordered by name comparison; in particular
"Oslo Skole" ranks before "Ny Oslo Skole" on the query "Oslo". -/
theorem search_matches_and_order (query : String) (schools : List School)
    (_hq : 2 ≤ query.length) :
    (∀ s : School, s ∈ sortedMatches query schools ↔
        s ∈ schools ∧ jsIncludes (jsToLower s.name) (jsToLower query) = true)
    ∧ (sortedMatches query schools).Pairwise (fun a b =>
        (jsStartsWith (jsToLower a.name) (jsToLower query) = false →
          jsStartsWith (jsToLower b.name) (jsToLower query) = false)
        ∧ (jsStartsWith (jsToLower a.name) (jsToLower query)
             = jsStartsWith (jsToLower b.name) (jsToLower query) →
           localeCompare a.name b.name ≤ 0))
    ∧ (sortedMatches "Oslo" [osloSchool2, osloSchool1]).map School.name
        = ["Oslo Skole", "Ny Oslo Skole"] := by
  refine ⟨?_, ?_, by decide⟩
  · intro s
    rw [sortedMatches_def,
      (List.perm_insertionSort (searchSortRel (jsToLower query)) _).mem_iff,
      List.mem_filter]
  · haveI : IsTotal School (searchSortRel (jsToLower query)) :=
      ⟨searchSortRel_total (jsToLower query)⟩
    haveI : IsTrans School (searchSortRel (jsToLower query)) :=
      ⟨searchSortRel_trans (jsToLower query)⟩
    rw [sortedMatches_def]
    refine (List.sorted_insertionSort (searchSortRel (jsToLower query)) _).imp ?_
    intro a b hab
    rw [searchSortRel_iff] at hab
    rcases hab with ⟨haT, hbF⟩ | ⟨hEq, hle⟩
    · refine ⟨fun haF => ?_, fun heq => ?_⟩
      · rw [haF] at haT
        exact Bool.noConfusion haT
      · rw [haT, hbF] at heq
        exact Bool.noConfusion heq
    · exact ⟨fun haF => hEq ▸ haF, fun _ => hle⟩

/-- C4 witness: on the query "Oslo" over the two example schools,
"Oslo Skole" (starts-with) is ranked before "Ny Oslo Skole"
(contains-only). -/
theorem search_matches_and_order_witness :
    2 ≤ "Oslo".length
    ∧ (sortedMatches "Oslo" [osloSchool2, osloSchool1]).map School.name
        = ["Oslo Skole", "Ny Oslo Skole"] :=
  ⟨by decide, (search_matches_and_order "Oslo" [osloSchool2, osloSchool1] (by decide)).2.2⟩

/-- C5: with more than 10 matches, the rendered result list is exactly
the rows for the first 10 sorted matches plus one indicator line that
contains both the number shown and the true total. -/
theorem search_display_capped (query : String) (schools : List School)
    (h : maxResults < (sortedMatches query schools).length) :
    performSearchRendering query schools
      = SearchRendering.results
          (((sortedMatches query schools).take maxResults).map (searchResultItemHtml query))
          (some (moreResultsIndicator maxResults (sortedMatches query schools).length))
    ∧ (((sortedMatches query schools).take maxResults).map
        (searchResultItemHtml query)).length = maxResults
    ∧ (toString maxResults).toList
        <:+: (moreResultsIndicator maxResults (sortedMatches query schools).length).toList
    ∧ (toString (sortedMatches query schools).length).toList
        <:+: (moreResultsIndicator maxResults (sortedMatches query schools).length).toList := by
  have h0 : 0 < (sortedMatches query schools).length :=
    lt_trans (by norm_num [maxResults]) h
  refine ⟨?_, ?_, ?_, ?_⟩
  · simp only [performSearchRendering, gt_iff_lt, h0, h, if_true]
  · simp [List.length_take, Nat.min_eq_left h.le]
  · simp only [moreResultsIndicator, String.append_assoc]
    apply infix_toList_append_right
    apply infix_toList_append_left
    exact List.infix_rfl
  · simp only [moreResultsIndicator, String.append_assoc]
    apply infix_toList_append_right
    apply infix_toList_append_right
    apply infix_toList_append_right
    apply infix_toList_append_left
    exact List.infix_rfl

/-- C5 witness: fifteen matching schools display exactly 10 rows and an
indicator containing "15" and "10". -/
theorem search_display_capped_witness :
    maxResults < (sortedMatches "Skole" fifteenSchools).length
    ∧ performSearchRendering "Skole" fifteenSchools
        = SearchRendering.results
            (((sortedMatches "Skole" fifteenSchools).take maxResults).map
              (searchResultItemHtml "Skole"))
            (some (moreResultsIndicator maxResults
              (sortedMatches "Skole" fifteenSchools).length))
    ∧ "15".toList <:+: (moreResultsIndicator maxResults
        (sortedMatches "Skole" fifteenSchools).length).toList
    ∧ "10".toList <:+: (moreResultsIndicator maxResults
        (sortedMatches "Skole" fifteenSchools).length).toList :=
  ⟨by decide, (search_display_capped "Skole" fifteenSchools (by decide)).1,
   by decide, by decide⟩

end OsloSkoler
